import Mathlib

/-!
# Verification of the github-issue-helper core

Shallow embedding of the core modules of the repository:
`src/csv_parser.py` (record normalization), `src/github_client.py`
(batch issue synchronization) and `src/projects_client.py`
(project-board schema client).

Python strings are modelled as `List Char` (`Str`), with executable
models of `str.lower`, `str.strip`, `str.split` for the ASCII range the
program manipulates.  Remote effects (GitHub REST/GraphQL calls) are
modelled by explicit oracle parameters; stateful caches are threaded
explicitly.  Python dicts are modelled as association lists with
first-key lookup and update-or-append insertion; Python sets as lists
with membership.  Python string truthiness (`if s:`) is modelled as
`s ≠ []`.  Quoting of interpolated values inside warning/error message
text is elided (the surrounding prose is kept verbatim).
-/

namespace IssueHelper

/-- Python strings, modelled as lists of characters. -/
abbrev Str := List Char

namespace Py

/-- Python `str.lower()` (ASCII case mapping). -/
def lower (s : Str) : Str := s.map Char.toLower

/-- Python `str.strip()`: whitespace removed from both ends. -/
def strip (s : Str) : Str :=
  ((s.dropWhile Char.isWhitespace).reverse.dropWhile Char.isWhitespace).reverse

/-- Python `str.split(sep)` for a one-character separator: splits at every
occurrence, keeping empty pieces (`"".split(",") == [""]`). -/
def split (sep : Char) : Str → List Str
  | [] => [[]]
  | c :: rest =>
    let r := split sep rest
    if c = sep then [] :: r
    else
      match r with
      | [] => [[c]]
      | p :: ps => (c :: p) :: ps

end Py

/-- Python dict lookup: first pair whose key matches. -/
def lookupDict {α : Type} (d : List (Str × α)) (k : Str) : Option α :=
  (d.find? (fun p => p.1 = k)).map (·.2)

/-- Python dict assignment `d[k] = v`: overwrite in place if the key is
present, otherwise append (insertion order preserved). -/
def dictInsert {α : Type} (d : List (Str × α)) (k : Str) (v : α) : List (Str × α) :=
  if (d.find? (fun p => p.1 = k)).isSome then
    d.map (fun p => if p.1 = k then (k, v) else p)
  else
    d ++ [(k, v)]

/-! ## csv_parser.py -/

/-- Model of `IssueData` from `src/csv_parser.py`: one normalized issue record. -/
structure IssueData where
  title : Str
  description : Str
  assignee : Option Str
  labels : List Str
deriving Repr, DecidableEq

/-- Model of `CSVParser._parse_labels`: falsy (`None`/empty) input gives `[]`;
otherwise the separators `,` `;` `|` are scanned in that fixed order and
the string is split on the first of them that occurs anywhere in it;
tokens are stripped and empty tokens dropped. -/
def parse_labels (labels_raw : Option Str) : List Str :=
  match labels_raw with
  | none => []
  | some s =>
    if s = [] then []
    else
      let separators : List Char := [',', ';', '|']
      let labels : List Str :=
        match separators.find? (fun sep => s.contains sep) with
        | some sep => Py.split sep s
        | none => [s]
      (labels.map Py.strip).filter (fun l => l ≠ [])

/-! ## github_client.py -/

/-- Model of `IssueCreationResult` from `src/github_client.py`. -/
structure IssueCreationResult where
  success : Bool
  issue_data : IssueData
  issue_url : Option Str := none
  error_message : Option Str := none
  skipped : Bool := false
  skip_reason : Option Str := none
deriving Repr, DecidableEq

/-- Model of `BatchResult` from `src/github_client.py`. -/
structure BatchResult where
  total_issues : Nat
  successful : Nat
  failed : Nat
  skipped : Nat
  results : List IssueCreationResult
deriving Repr, DecidableEq

/-- Python truthiness on an optional string: `None` and `""` are falsy. -/
def truthy : Option Str → Option Str
  | some s => if s = [] then none else some s
  | none => none

/-- Model of `GitHubClient._cache_existing_issues`: the set of lower-cased titles of
the fetched open issues; a failed fetch (`none`) degrades to the empty set. -/
def cache_existing_issues (fetched : Option (List Str)) : List Str :=
  match fetched with
  | some titles => titles.map Py.lower
  | none => []

/-- Model of `GitHubClient._cache_existing_labels`: dict from lower-cased label name
to canonical label name; a failed fetch degrades to the empty dict. -/
def cache_existing_labels (fetched : Option (List Str)) : List (Str × Str) :=
  match fetched with
  | some names => names.foldl (fun d n => dictInsert d (Py.lower n) n) []
  | none => []

/-- Model of `GitHubClient._issue_title_exists`: `False` when the cache was never
built, else membership of the lower-cased title. -/
def issue_title_exists (cache : Option (List Str)) (title : Str) : Bool :=
  match cache with
  | none => false
  | some c => c.any (fun t => t = Py.lower title)

/-- Model of `GitHubClient._validate_assignee`; `lookupOk` is the outcome of
`repo.get_collaborator_permission`.  A falsy assignee gives `None`; any
lookup failure drops the assignee to `None` (warning only). -/
def validate_assignee (lookupOk : Str → Bool) (assignee : Option Str) : Option Str :=
  match truthy assignee with
  | none => none
  | some a => if lookupOk a then some a else none

/-- Model of `GitHubClient._ensure_labels_exist`.  `create` is the oracle for
`repo.create_label`: `some name` is a successful creation returning the
canonical name of the created label, `none` a caught creation failure.
Returns the valid label names, the updated label cache, and the list of
labels for which a creation call was issued (in order). -/
def ensure_labels_exist (create : Str → Option Str) :
    List (Str × Str) → List Str → List Str × List (Str × Str) × List Str
  | cache, [] => ([], cache, [])
  | cache, label :: rest =>
    match truthy (lookupDict cache (Py.lower label)) with
    | some existing_label =>
      let (vs, c, att) := ensure_labels_exist create cache rest
      (existing_label :: vs, c, att)
    | none =>
      match create label with
      | some newName =>
        let cache2 := dictInsert cache (Py.lower label) newName
        let (vs, c, att) := ensure_labels_exist create cache2 rest
        (newName :: vs, c, label :: att)
      | none =>
        let (vs, c, att) := ensure_labels_exist create cache rest
        (vs, c, label :: att)

/-- Per-record remote-call oracles for `_create_single_issue`. -/
structure RecordEnv where
  collaboratorOk : Str → Bool
  createLabel : Str → Option Str
  /-- Model of `repo.create_issue` on (title, body, assignee, labels): `ok url`,
  or `error msg` for a raised exception. -/
  createIssue : Str → Str → Option Str → List Str → Except Str Str

/-- Model of `GitHubClient._create_single_issue`: duplicate check against the
pre-batch snapshot, assignee validation, label reconciliation (threading
the label cache), then the creation call. -/
def create_single_issue (existing_issues : Option (List Str))
    (labelCache : List (Str × Str)) (env : RecordEnv) (d : IssueData) :
    IssueCreationResult × List (Str × Str) :=
  if issue_title_exists existing_issues d.title then
    ({ success := false, issue_data := d, skipped := true,
       skip_reason := some ("Issue with title ".toList ++ d.title ++
         " already exists".toList) },
     labelCache)
  else
    let assignee := validate_assignee env.collaboratorOk d.assignee
    let (labels, labelCache2, _) := ensure_labels_exist env.createLabel labelCache d.labels
    match env.createIssue d.title d.description assignee labels with
    | .ok url =>
      ({ success := true, issue_data := d, issue_url := some url }, labelCache2)
    | .error msg =>
      ({ success := false, issue_data := d,
         error_message := some ("GitHub API error: ".toList ++ msg) },
       labelCache2)

/-- The record loop of `create_issues_batch`: processes records in input
order, threading the label cache; the duplicate cache is fixed. -/
def batch_loop (existing_issues : Option (List Str)) (env : Nat → RecordEnv) :
    Nat → List (Str × Str) → List IssueData → List IssueCreationResult
  | _, _, [] => []
  | i, lc, d :: rest =>
    let (r, lc2) := create_single_issue existing_issues lc (env i) d
    r :: batch_loop existing_issues env (i + 1) lc2 rest

/-- The `if r.success / elif r.skipped / else` counter of
`create_issues_batch`, as (successful, failed, skipped). -/
def tally : List IssueCreationResult → Nat × Nat × Nat
  | [] => (0, 0, 0)
  | r :: rest =>
    let (s, f, sk) := tally rest
    if r.success then (s + 1, f, sk)
    else if r.skipped then (s, f, sk + 1)
    else (s, f + 1, sk)

/-- Model of `GitHubClient.create_issues_batch` (after a successful `connect`):
builds both caches, runs the sequential record loop, and aggregates. -/
def create_issues_batch (fetchedIssues : Option (List Str))
    (fetchedLabels : Option (List Str)) (env : Nat → RecordEnv)
    (issues : List IssueData) : BatchResult :=
  let existing := some (cache_existing_issues fetchedIssues)
  let labelCache := cache_existing_labels fetchedLabels
  let results := batch_loop existing env 0 labelCache issues
  let (s, f, sk) := tally results
  { total_issues := issues.length, successful := s, failed := f,
    skipped := sk, results := results }

/-- Concrete oracle environment used by witnesses: creation for record 0
succeeds, every later creation raises; collaborator lookups succeed and
label creations succeed echoing the requested name. -/
def witEnv : Nat → RecordEnv := fun i =>
  { collaboratorOk := fun _ => true
    createLabel := fun l => some l
    createIssue := fun _ _ _ _ =>
      if i = 0 then Except.ok "url-0".toList else Except.error "boom".toList }

/-- Concrete record used by witnesses. -/
def witRecord (t : String) : IssueData :=
  { title := t.toList, description := "d".toList, assignee := none, labels := [] }

/-! ## projects_client.py -/

/-- Model of `ProjectField` from `src/projects_client.py`: a custom field; `options`
is non-empty only for `SINGLE_SELECT` fields. -/
structure ProjectField where
  id : Str
  name : Str
  data_type : Str
  options : List Str := []
deriving Repr, DecidableEq

/-- Model of `ProjectColumn` from `src/projects_client.py`. -/
structure ProjectColumn where
  id : Str
  name : Str
  is_default : Bool := false
deriving Repr, DecidableEq

/-- Model of `ProjectInfo` from `src/projects_client.py`. -/
structure ProjectInfo where
  id : Str
  number : Nat
  title : Str
  url : Str
  columns : List ProjectColumn
  custom_fields : List ProjectField
deriving Repr, DecidableEq

/-- Model of `GitHubProjectsClient.get_projects`: repository-scoped projects, then
organization-scoped, then user-scoped; query failure of a scope
degrades to an empty list for that scope (modelled by the lists given). -/
def get_projects (repo_projects org_projects user_projects : List ProjectInfo) :
    List ProjectInfo :=
  repo_projects ++ org_projects ++ user_projects

/-- Model of `GitHubProjectsClient.find_project_by_name`: first project in
discovery order whose title matches case-insensitively, else `None`. -/
def find_project_by_name
    (repo_projects org_projects user_projects : List ProjectInfo)
    (project_name : Str) : Option ProjectInfo :=
  (get_projects repo_projects org_projects user_projects).find?
    (fun project => Py.lower project.title = Py.lower project_name)

/-- The fixed default-name list of `GitHubProjectsClient.get_default_status`. -/
def default_names : List Str :=
  ["backlog".toList, "todo".toList, "to do".toList, "new".toList,
    "inbox".toList, "triage".toList]

/-- The column loop of `get_default_status`: per column, in order, the
flag check then the name check, returning on the first hit. -/
def default_status_loop : List ProjectColumn → Option Str
  | [] => none
  | column :: rest =>
    if column.is_default then some column.name
    else if default_names.contains (Py.lower column.name) then some column.name
    else default_status_loop rest

/-- Model of `GitHubProjectsClient.get_default_status`: the loop above; if it finds
nothing, the name of the first column; else `None`. -/
def get_default_status (project : ProjectInfo) : Option Str :=
  match default_status_loop project.columns with
  | some n => some n
  | none =>
    match project.columns with
    | [] => none
    | column :: _ => some column.name

/-- Modelled from the words of the spec for comparison with
`get_default_status` (claim C4): the explicit-default column if any
column has the default flag set; otherwise the first column whose name
matches the default-name heuristic; otherwise the first column;
otherwise none. -/
def resolveDefaultColumn_spec (project : ProjectInfo) : Option Str :=
  match project.columns.find? (·.is_default) with
  | some c => some c.name
  | none =>
    match project.columns.find?
        (fun c => default_names.contains (Py.lower c.name)) with
    | some c => some c.name
    | none =>
      match project.columns with
      | [] => none
      | column :: _ => some column.name

/-- The status-key aliases scanned by
`parse_project_fields_from_csv_row` for the status override. -/
def status_keys : List Str :=
  ["status".toList, "column".toList, "project_status".toList, "state".toList]

/-- The keys skipped by `parse_project_fields_from_csv_row` when
extracting custom-field overrides (note: `state` is absent here although
it is in `status_keys`). -/
def standard_skip_keys : List Str :=
  ["title".toList, "description".toList, "assignee".toList, "labels".toList,
    "status".toList, "column".toList, "project_status".toList]

/-- Model of `GitHubProjectsClient.parse_project_fields_from_csv_row`: the status
override is the stripped value of the first status key present with a
truthy value; the custom-field overrides are the non-skipped, non-blank
row entries whose lower-cased key matches a project field name
(canonical field name as key, stripped value). -/
def parse_project_fields_from_csv_row (project : ProjectInfo)
    (row_data : List (Str × Str)) : Option Str × List (Str × Str) :=
  let status := status_keys.findSome? (fun key =>
    match truthy (lookupDict row_data key) with
    | some v => some (Py.strip v)
    | none => none)
  let project_field_names := project.custom_fields.foldl
    (fun d f => dictInsert d (Py.lower f.name) f.name) []
  let custom_fields := row_data.foldl (fun acc kv =>
    let csv_key_lower := Py.lower kv.1
    if standard_skip_keys.contains csv_key_lower then acc
    else if Py.strip kv.2 = [] then acc
    else
      match lookupDict project_field_names csv_key_lower with
      | some field_name => dictInsert acc field_name (Py.strip kv.2)
      | none => acc) []
  (status, custom_fields)

/-- Python `", ".join(...)`. -/
def joinComma (l : List Str) : Str := (l.intersperse ", ".toList).flatten

/-- The `valid_fields` dict of `validate_project_fields`:
lower-cased field name to the field. -/
def valid_fields_dict (project : ProjectInfo) : List (Str × ProjectField) :=
  project.custom_fields.foldl (fun d f => dictInsert d (Py.lower f.name) f) []

/-- The status branch of `validate_project_fields`: a truthy status that
does not case-insensitively match a column name yields one error. -/
def status_errors (project : ProjectInfo) (status : Option Str) : List Str :=
  match truthy status with
  | none => []
  | some s =>
    let valid_columns := project.columns.map (fun col => Py.lower col.name)
    if valid_columns.contains (Py.lower s) then []
    else ["Invalid status ".toList ++ s ++ ". Available: ".toList ++
      joinComma (project.columns.map (·.name))]

/-- One iteration of the custom-field loop of `validate_project_fields`:
an unknown field key yields one error; a known `SINGLE_SELECT` field with
a non-empty options list and a value matching no option
case-insensitively yields one error; anything else yields none. -/
def validate_field_entry (project : ProjectInfo) (kv : Str × Str) : List Str :=
  match lookupDict (valid_fields_dict project) (Py.lower kv.1) with
  | none =>
    ["Invalid field ".toList ++ kv.1 ++ ". Available: ".toList ++
      joinComma (project.custom_fields.map (·.name))]
  | some field =>
    if field.data_type = "SINGLE_SELECT".toList ∧ field.options ≠ [] then
      let valid_options := field.options.map Py.lower
      if valid_options.contains (Py.lower kv.2) then []
      else ["Invalid value ".toList ++ kv.2 ++ " for field ".toList ++ kv.1 ++
        ". Available: ".toList ++ joinComma field.options]
    else []

/-- Model of `GitHubProjectsClient.validate_project_fields`: collects the status
error and the per-entry field errors, then returns
`(len(errors) == 0, errors)`. -/
def validate_project_fields (project : ProjectInfo) (status : Option Str)
    (custom_fields : List (Str × Str)) : Bool × List Str :=
  let errors := status_errors project status
  let errors := custom_fields.foldl
    (fun errs kv => errs ++ validate_field_entry project kv) errors
  (errors.length == 0, errors)

/-- One attempted GraphQL call of the project-assignment flow, used to
reason about which phases were attempted. -/
inductive ProjAction
  | attach (projectId contentId : Str)
  | queryOptionId (fieldId optionName : Str)
  | setFieldValue (fieldId itemId : Str)
deriving Repr, DecidableEq

/-- Remote-call oracles for the project-assignment flow. -/
structure ProjEnv where
  /-- Model of `addProjectV2ItemById` on (projectId, contentId): the returned item
  id, or `none` on a failed call or an absent item. -/
  attachResult : Str → Str → Option Str
  /-- Model of `_get_field_option_id` on (fieldId, optionName); `none` on failure
  or no case-insensitive match among the server-side options. -/
  optionId : Str → Str → Option Str
  /-- whether Python `float(value)` parses, for `NUMBER` fields. -/
  numberOk : Str → Bool
  /-- whether `updateProjectV2ItemFieldValue` on (fieldId, itemId)
  succeeds. -/
  updateOk : Str → Str → Bool

/-- Model of `GitHubProjectsClient._set_project_item_status`: find the Status
field, find the option case-insensitively, resolve its id, then mutate.
Returns success plus the calls attempted. -/
def set_project_item_status (env : ProjEnv) (project : ProjectInfo)
    (item_id : Str) (status : Str) : Bool × List ProjAction :=
  match project.custom_fields.find?
      (fun f => Py.lower f.name = "status".toList) with
  | none => (false, [])
  | some status_field =>
    match status_field.options.find?
        (fun opt => Py.lower opt = Py.lower status) with
    | none => (false, [])
    | some status_option =>
      match env.optionId status_field.id status_option with
      | none => (false, [.queryOptionId status_field.id status_option])
      | some _ =>
        (env.updateOk status_field.id item_id,
          [.queryOptionId status_field.id status_option,
            .setFieldValue status_field.id item_id])

/-- Model of `GitHubProjectsClient._set_single_custom_field`: dispatch on the
declared `data_type`; an unresolved single-select option, an unparsable
number or an unsupported type fail without a mutation call. -/
def set_single_custom_field (env : ProjEnv) (project : ProjectInfo)
    (item_id : Str) (field : ProjectField) (value : Str) :
    Bool × List ProjAction :=
  if field.data_type = "SINGLE_SELECT".toList then
    match env.optionId field.id value with
    | some _ => (env.updateOk field.id item_id,
        [.queryOptionId field.id value, .setFieldValue field.id item_id])
    | none => (false, [.queryOptionId field.id value])
  else if field.data_type = "TEXT".toList then
    (env.updateOk field.id item_id, [.setFieldValue field.id item_id])
  else if field.data_type = "NUMBER".toList then
    if env.numberOk value then
      (env.updateOk field.id item_id, [.setFieldValue field.id item_id])
    else (false, [])
  else if field.data_type = "DATE".toList then
    (env.updateOk field.id item_id, [.setFieldValue field.id item_id])
  else (false, [])

/-- One iteration of `_set_project_item_custom_fields`: an unknown field
name is skipped; otherwise the single-field setter runs, its failure
swallowed.  Returns the calls attempted. -/
def field_entry_actions (env : ProjEnv) (project : ProjectInfo)
    (item_id : Str) (kv : Str × Str) : List ProjAction :=
  match project.custom_fields.find?
      (fun f => Py.lower f.name = Py.lower kv.1) with
  | none => []
  | some field => (set_single_custom_field env project item_id field kv.2).2

/-- Model of `GitHubProjectsClient._set_project_item_custom_fields`: processes
every entry; the failure of each entry is isolated. -/
def set_project_item_custom_fields (env : ProjEnv) (project : ProjectInfo)
    (item_id : Str) (custom_fields : List (Str × Str)) : List ProjAction :=
  custom_fields.foldl
    (fun acts kv => acts ++ field_entry_actions env project item_id kv) []

/-- Model of `GitHubProjectsClient.add_issue_to_project`: attach first — a missing
item reference aborts with failure; otherwise the status phase (when a
truthy status is given; its result is ignored) and then the custom-field
phase (when fields are given) run, and the call reports success. -/
def add_issue_to_project (env : ProjEnv) (project : ProjectInfo)
    (issue_node_id : Str) (status : Option Str)
    (custom_fields : List (Str × Str)) : Bool × List ProjAction :=
  match env.attachResult project.id issue_node_id with
  | none => (false, [.attach project.id issue_node_id])
  | some item_id =>
    let status_actions :=
      match truthy status with
      | some s => (set_project_item_status env project item_id s).2
      | none => []
    let field_actions :=
      if custom_fields ≠ [] then
        set_project_item_custom_fields env project item_id custom_fields
      else []
    (true, .attach project.id issue_node_id :: (status_actions ++ field_actions))

/-! ### Concrete inputs used by counterexamples and witnesses -/

/-- A project whose first column is heuristic-named but not flagged
default, while a later column carries the explicit default flag. -/
def projHeurFirst : ProjectInfo :=
  { id := "p4".toList, number := 4, title := "P4".toList, url := "u4".toList,
    columns := [
      { id := "c1".toList, name := "backlog".toList, is_default := false },
      { id := "c2".toList, name := "X".toList, is_default := true }],
    custom_fields := [] }

/-- A project with a custom field named `State`. -/
def projStateField : ProjectInfo :=
  { id := "p5".toList, number := 5, title := "P5".toList, url := "u5".toList,
    columns := [],
    custom_fields := [
      { id := "f1".toList, name := "State".toList,
        data_type := "TEXT".toList, options := [] }] }

/-- The validation example of the spec: columns Todo/Doing/Done and a
single-select field `Size` with options S, M, L. -/
def projSizes : ProjectInfo :=
  { id := "p6".toList, number := 6, title := "P6".toList, url := "u6".toList,
    columns := [
      { id := "c1".toList, name := "Todo".toList, is_default := false },
      { id := "c2".toList, name := "Doing".toList, is_default := false },
      { id := "c3".toList, name := "Done".toList, is_default := false }],
    custom_fields := [
      { id := "fs".toList, name := "Size".toList,
        data_type := "SINGLE_SELECT".toList,
        options := ["S".toList, "M".toList, "L".toList] }] }

/-- A project with a single-select field that has no options. -/
def projNoOptions : ProjectInfo :=
  { id := "p9".toList, number := 9, title := "P9".toList, url := "u9".toList,
    columns := [],
    custom_fields := [
      { id := "fe".toList, name := "Empty".toList,
        data_type := "SINGLE_SELECT".toList, options := [] }] }

/-- A project with a Status single-select field and two custom fields. -/
def projBoard : ProjectInfo :=
  { id := "p8".toList, number := 8, title := "P8".toList, url := "u8".toList,
    columns := [],
    custom_fields := [
      { id := "fstatus".toList, name := "Status".toList,
        data_type := "SINGLE_SELECT".toList,
        options := ["Todo".toList, "Done".toList] },
      { id := "fA".toList, name := "A".toList,
        data_type := "TEXT".toList, options := [] },
      { id := "fB".toList, name := "B".toList,
        data_type := "SINGLE_SELECT".toList,
        options := ["Good".toList] }] }

/-- Assignment oracles whose attach call fails. -/
def projEnvAttachFail : ProjEnv :=
  { attachResult := fun _ _ => none, optionId := fun _ _ => some "oid".toList,
    numberOk := fun _ => true, updateOk := fun _ _ => true }

/-- Assignment oracles where everything succeeds except resolving the
option named `Nope`. -/
def projEnvOk : ProjEnv :=
  { attachResult := fun _ _ => some "item".toList,
    optionId := fun _ opt => if opt = "Nope".toList then none
      else some "oid".toList,
    numberOk := fun _ => true, updateOk := fun _ _ => true }

/-- A repository-scoped project titled `Board`. -/
def projRepoBoard : ProjectInfo :=
  { id := "repo-1".toList, number := 1, title := "Board".toList,
    url := "ur".toList, columns := [], custom_fields := [] }

/-- A user-scoped project also titled (up to case) `board`. -/
def projUserBoard : ProjectInfo :=
  { id := "user-1".toList, number := 2, title := "board".toList,
    url := "uu".toList, columns := [], custom_fields := [] }

/-! ### Helper lemmas on the batch loop -/

theorem create_single_issue_fst_issue_data (e : Option (List Str))
    (lc : List (Str × Str)) (env : RecordEnv) (d : IssueData) :
    (create_single_issue e lc env d).1.issue_data = d := by
  unfold create_single_issue
  split
  · rfl
  · split
    dsimp only
    split <;> rfl

theorem create_single_issue_skipped_eq (e : Option (List Str))
    (lc : List (Str × Str)) (env : RecordEnv) (d : IssueData) :
    (create_single_issue e lc env d).1.skipped = issue_title_exists e d.title := by
  unfold create_single_issue
  split
  next h => simp_all
  next h =>
    split
    dsimp only
    split <;> simp_all

theorem create_single_issue_classified (e : Option (List Str))
    (lc : List (Str × Str)) (env : RecordEnv) (d : IssueData) :
    ((create_single_issue e lc env d).1.success = true ∧
        (create_single_issue e lc env d).1.skipped = false) ∨
      ((create_single_issue e lc env d).1.success = false ∧
        (create_single_issue e lc env d).1.skipped = true) ∨
      ((create_single_issue e lc env d).1.success = false ∧
        (create_single_issue e lc env d).1.skipped = false) := by
  unfold create_single_issue
  split
  · simp
  · split
    dsimp only
    split <;> simp

theorem batch_loop_cons (e : Option (List Str)) (env : Nat → RecordEnv)
    (i : Nat) (lc : List (Str × Str)) (d : IssueData) (rest : List IssueData) :
    batch_loop e env i lc (d :: rest) =
      (create_single_issue e lc (env i) d).1 ::
        batch_loop e env (i + 1) (create_single_issue e lc (env i) d).2 rest := rfl

theorem batch_loop_length (e : Option (List Str)) (env : Nat → RecordEnv)
    (issues : List IssueData) :
    ∀ (i : Nat) (lc : List (Str × Str)),
      (batch_loop e env i lc issues).length = issues.length := by
  induction issues with
  | nil => intro i lc; rfl
  | cons d rest ih =>
    intro i lc
    rw [batch_loop_cons]
    simp [ih]

theorem batch_loop_map_data (e : Option (List Str)) (env : Nat → RecordEnv)
    (issues : List IssueData) :
    ∀ (i : Nat) (lc : List (Str × Str)),
      (batch_loop e env i lc issues).map (·.issue_data) = issues := by
  induction issues with
  | nil => intro i lc; rfl
  | cons d rest ih =>
    intro i lc
    rw [batch_loop_cons]
    simp [ih, create_single_issue_fst_issue_data]

theorem batch_loop_map_skipped (e : Option (List Str)) (env : Nat → RecordEnv)
    (issues : List IssueData) :
    ∀ (i : Nat) (lc : List (Str × Str)),
      (batch_loop e env i lc issues).map (·.skipped) =
        issues.map (fun d => issue_title_exists e d.title) := by
  induction issues with
  | nil => intro i lc; rfl
  | cons d rest ih =>
    intro i lc
    rw [batch_loop_cons]
    simp [ih, create_single_issue_skipped_eq]

theorem batch_loop_forall (e : Option (List Str)) (env : Nat → RecordEnv)
    (P : IssueCreationResult → Prop)
    (h : ∀ lc env0 d, P (create_single_issue e lc env0 d).1) :
    ∀ (issues : List IssueData) (i : Nat) (lc : List (Str × Str)),
      ∀ r ∈ batch_loop e env i lc issues, P r := by
  intro issues
  induction issues with
  | nil => intro i lc r hr; cases hr
  | cons d rest ih =>
    intro i lc r hr
    rw [batch_loop_cons] at hr
    rcases List.mem_cons.mp hr with h1 | h2
    · subst h1; exact h _ _ _
    · exact ih _ _ _ h2

theorem tally_sum (rs : List IssueCreationResult) :
    (tally rs).1 + (tally rs).2.1 + (tally rs).2.2 = rs.length := by
  induction rs with
  | nil => rfl
  | cons r rest ih =>
    rcases htr : tally rest with ⟨s, f, sk⟩
    simp only [htr] at ih
    cases hs : r.success <;> cases hk : r.skipped <;>
      simp only [tally, hs, hk, htr, List.length_cons] <;> simp <;> omega

/-! ### Claim C1 -/

/-- C1: For every list of records passed to `create_issues_batch` after a
successful connect, the returned `BatchResult` satisfies
`total_issues = successful + failed + skipped = len(records)`, every
outcome is classified as exactly one of created/skipped/failed (the
`success`/`skipped` flags never both hold, and the `if/elif/else`
classifier buckets each outcome once), and the results list contains one
outcome per input record in the same order as the input list. -/
theorem C1_batch_invariants (fetchedIssues fetchedLabels : Option (List Str))
    (env : Nat → RecordEnv) (issues : List IssueData) :
    (create_issues_batch fetchedIssues fetchedLabels env issues).total_issues =
        issues.length ∧
    (create_issues_batch fetchedIssues fetchedLabels env issues).successful +
        (create_issues_batch fetchedIssues fetchedLabels env issues).failed +
        (create_issues_batch fetchedIssues fetchedLabels env issues).skipped =
        issues.length ∧
    (create_issues_batch fetchedIssues fetchedLabels env issues).results.map
        (·.issue_data) = issues ∧
    ∀ r ∈ (create_issues_batch fetchedIssues fetchedLabels env issues).results,
      (r.success = true ∧ r.skipped = false) ∨
      (r.success = false ∧ r.skipped = true) ∨
      (r.success = false ∧ r.skipped = false) := by
  refine ⟨rfl, ?_, ?_, ?_⟩
  · exact (tally_sum
      (batch_loop (some (cache_existing_issues fetchedIssues)) env 0
        (cache_existing_labels fetchedLabels) issues)).trans
      (batch_loop_length (some (cache_existing_issues fetchedIssues)) env issues 0
        (cache_existing_labels fetchedLabels))
  · exact batch_loop_map_data (some (cache_existing_issues fetchedIssues)) env issues 0
      (cache_existing_labels fetchedLabels)
  · exact fun r hr =>
      batch_loop_forall (some (cache_existing_issues fetchedIssues)) env
        (fun r => (r.success = true ∧ r.skipped = false) ∨
          (r.success = false ∧ r.skipped = true) ∨
          (r.success = false ∧ r.skipped = false))
        (fun lc env0 d => create_single_issue_classified _ lc env0 d) issues 0
        (cache_existing_labels fetchedLabels) r hr

theorem C1_batch_invariants_witness :
    ((create_issues_batch (some ["dup".toList]) none witEnv
        [witRecord "A", witRecord "dup", witRecord "B"]).total_issues =
        [witRecord "A", witRecord "dup", witRecord "B"].length ∧
      (create_issues_batch (some ["dup".toList]) none witEnv
          [witRecord "A", witRecord "dup", witRecord "B"]).successful +
        (create_issues_batch (some ["dup".toList]) none witEnv
          [witRecord "A", witRecord "dup", witRecord "B"]).failed +
        (create_issues_batch (some ["dup".toList]) none witEnv
          [witRecord "A", witRecord "dup", witRecord "B"]).skipped =
        [witRecord "A", witRecord "dup", witRecord "B"].length ∧
      (create_issues_batch (some ["dup".toList]) none witEnv
          [witRecord "A", witRecord "dup", witRecord "B"]).results.map
        (·.issue_data) = [witRecord "A", witRecord "dup", witRecord "B"] ∧
      ∀ r ∈ (create_issues_batch (some ["dup".toList]) none witEnv
          [witRecord "A", witRecord "dup", witRecord "B"]).results,
        (r.success = true ∧ r.skipped = false) ∨
        (r.success = false ∧ r.skipped = true) ∨
        (r.success = false ∧ r.skipped = false)) ∧
    (create_issues_batch (some ["dup".toList]) none witEnv
        [witRecord "A", witRecord "dup", witRecord "B"]).successful = 1 ∧
    (create_issues_batch (some ["dup".toList]) none witEnv
        [witRecord "A", witRecord "dup", witRecord "B"]).skipped = 1 ∧
    (create_issues_batch (some ["dup".toList]) none witEnv
        [witRecord "A", witRecord "dup", witRecord "B"]).failed = 1 :=
  ⟨C1_batch_invariants (some ["dup".toList]) none witEnv
      [witRecord "A", witRecord "dup", witRecord "B"],
    by decide, by decide, by decide⟩

/-! ### Claim C2 -/

theorem issue_title_exists_snapshot (fetched : List Str) (t : Str) :
    issue_title_exists (some (cache_existing_issues (some fetched))) t = true ↔
      Py.lower t ∈ fetched.map Py.lower := by
  simp only [issue_title_exists, cache_existing_issues, List.any_eq_true,
    decide_eq_true_eq, exists_eq_right]

theorem create_single_issue_success_of_ok (e : Option (List Str))
    (lc : List (Str × Str)) (env : RecordEnv) (d : IssueData)
    (hdup : issue_title_exists e d.title = false)
    (hok : ∀ t b a ls, ∃ u, env.createIssue t b a ls = Except.ok u) :
    (create_single_issue e lc env d).1.success = true := by
  unfold create_single_issue
  split
  next h => rw [hdup] at h; cases h
  next h =>
    split
    dsimp only
    obtain ⟨u, hu⟩ := hok d.title d.description
      (validate_assignee env.collaboratorOk d.assignee) _
    rw [hu]

/-- C2: duplicate detection is case-insensitive and consults only the
pre-batch snapshot.  (i) A record is skipped iff its lower-cased title is
in the lower-cased set of open-issue titles fetched before the batch, and
the skip reason says the title already exists.  (ii) The skip flag of each record
in a batch is a function of the fixed pre-batch snapshot alone —
issues created earlier in the same batch are never consulted.  (iii) Two
identically-titled records in one batch are both created when their title
is not in the snapshot and the creation calls succeed. -/
theorem C2_duplicate_detection :
    (∀ (fetched : List Str) (lc : List (Str × Str)) (env : RecordEnv)
        (d : IssueData),
      ((create_single_issue (some (cache_existing_issues (some fetched)))
          lc env d).1.skipped = true ↔
        Py.lower d.title ∈ fetched.map Py.lower) ∧
      ((create_single_issue (some (cache_existing_issues (some fetched)))
          lc env d).1.skipped = true →
        (create_single_issue (some (cache_existing_issues (some fetched)))
          lc env d).1.skip_reason =
          some ("Issue with title ".toList ++ d.title ++
            " already exists".toList))) ∧
    (∀ (e : Option (List Str)) (env : Nat → RecordEnv) (i : Nat)
        (lc : List (Str × Str)) (issues : List IssueData),
      (batch_loop e env i lc issues).map (·.skipped) =
        issues.map (fun d => issue_title_exists e d.title)) ∧
    (∀ (fetched : List Str) (lc : List (Str × Str)) (env : Nat → RecordEnv)
        (d₁ d₂ : IssueData),
      Py.lower d₁.title ∉ fetched.map Py.lower →
      d₂.title = d₁.title →
      (∀ j t b a ls, ∃ u, (env j).createIssue t b a ls = Except.ok u) →
      (batch_loop (some (cache_existing_issues (some fetched))) env 0 lc
          [d₁, d₂]).map (·.success) = [true, true]) := by
  refine ⟨fun fetched lc env d => ⟨?_, ?_⟩,
    fun e env i lc issues => batch_loop_map_skipped e env issues i lc, ?_⟩
  · rw [create_single_issue_skipped_eq]
    exact issue_title_exists_snapshot fetched d.title
  · intro hsk
    unfold create_single_issue at hsk ⊢
    split at hsk
    · split
      next h => rfl
      next h => simp_all
    · revert hsk
      split
      dsimp only
      split <;> intro hsk <;> cases hsk
  · intro fetched lc env d₁ d₂ hnotin hteq hok
    have hfalse : ∀ d : IssueData, d.title = d₁.title →
        issue_title_exists (some (cache_existing_issues (some fetched)))
          d.title = false := by
      intro d hd
      cases hb : issue_title_exists (some (cache_existing_issues (some fetched)))
        d.title with
      | false => rfl
      | true =>
        exact absurd (hd ▸ (issue_title_exists_snapshot fetched d.title).mp hb)
          hnotin
    rw [batch_loop_cons, batch_loop_cons]
    simp only [List.map_cons, List.map_nil]
    rw [create_single_issue_success_of_ok _ _ _ _ (hfalse d₁ rfl) (hok 0),
      create_single_issue_success_of_ok _ _ _ _ (hfalse d₂ hteq) (hok 1)]
    rfl

theorem C2_duplicate_detection_witness :
    (((create_single_issue (some (cache_existing_issues
          (some ["bug fix".toList]))) [] (witEnv 0)
          (witRecord "Bug Fix")).1.skipped = true ↔
        Py.lower (witRecord "Bug Fix").title ∈
          ["bug fix".toList].map Py.lower) ∧
      ((create_single_issue (some (cache_existing_issues
          (some ["bug fix".toList]))) [] (witEnv 0)
          (witRecord "Bug Fix")).1.skipped = true →
        (create_single_issue (some (cache_existing_issues
            (some ["bug fix".toList]))) [] (witEnv 0)
            (witRecord "Bug Fix")).1.skip_reason =
          some ("Issue with title ".toList ++ (witRecord "Bug Fix").title ++
            " already exists".toList))) ∧
    (create_single_issue (some (cache_existing_issues
        (some ["bug fix".toList]))) [] (witEnv 0)
        (witRecord "Bug Fix")).1.skipped = true ∧
    (batch_loop (some (cache_existing_issues (some []))) (fun _ => witEnv 0) 0 []
        [witRecord "Same", witRecord "Same"]).map (·.success) = [true, true] :=
  ⟨C2_duplicate_detection.1 ["bug fix".toList] [] (witEnv 0) (witRecord "Bug Fix"),
    by decide,
    C2_duplicate_detection.2.2 [] [] (fun _ => witEnv 0) (witRecord "Same")
      (witRecord "Same") (by decide) rfl
      (fun j t b a ls => ⟨"url-0".toList, rfl⟩)⟩

/-! ### Claim C7 -/

/-- C7: label reconciliation.  (i) With cache `{"bug": "Bug"}`, input
`["bug"]` returns `["Bug"]`, the cache is unchanged and no creation call
is issued.  (ii) In general, a case-insensitive cache hit substitutes the
cached canonical-case name and issues no creation call for that label.
(iii) On a cache miss a creation call is issued; on success the new
canonical name is used and added to the cache.  (iv) On creation failure
only that single label is dropped; the remaining labels are still
processed against the unchanged cache. -/
theorem C7_label_reconciliation :
    (∀ create : Str → Option Str,
      ensure_labels_exist create [("bug".toList, "Bug".toList)] ["bug".toList] =
        (["Bug".toList], [("bug".toList, "Bug".toList)], [])) ∧
    (∀ (create : Str → Option Str) (cache : List (Str × Str)) (label : Str)
        (rest : List Str) (name : Str),
      truthy (lookupDict cache (Py.lower label)) = some name →
      ensure_labels_exist create cache (label :: rest) =
        (name :: (ensure_labels_exist create cache rest).1,
          (ensure_labels_exist create cache rest).2.1,
          (ensure_labels_exist create cache rest).2.2)) ∧
    (∀ (create : Str → Option Str) (cache : List (Str × Str)) (label : Str)
        (rest : List Str) (newName : Str),
      truthy (lookupDict cache (Py.lower label)) = none →
      create label = some newName →
      ensure_labels_exist create cache (label :: rest) =
        (newName :: (ensure_labels_exist create
            (dictInsert cache (Py.lower label) newName) rest).1,
          (ensure_labels_exist create
            (dictInsert cache (Py.lower label) newName) rest).2.1,
          label :: (ensure_labels_exist create
            (dictInsert cache (Py.lower label) newName) rest).2.2)) ∧
    (∀ (create : Str → Option Str) (cache : List (Str × Str)) (label : Str)
        (rest : List Str),
      truthy (lookupDict cache (Py.lower label)) = none →
      create label = none →
      ensure_labels_exist create cache (label :: rest) =
        ((ensure_labels_exist create cache rest).1,
          (ensure_labels_exist create cache rest).2.1,
          label :: (ensure_labels_exist create cache rest).2.2)) := by
  refine ⟨fun create => rfl, ?_, ?_, ?_⟩
  · intro create cache label rest name h
    rcases hE : ensure_labels_exist create cache rest with ⟨vs, c, att⟩
    unfold ensure_labels_exist
    rw [h, hE]
  · intro create cache label rest newName h1 h2
    rcases hE : ensure_labels_exist create
      (dictInsert cache (Py.lower label) newName) rest with ⟨vs, c, att⟩
    unfold ensure_labels_exist
    rw [h1, h2]
    dsimp only
    rw [hE]
  · intro create cache label rest h1 h2
    rcases hE : ensure_labels_exist create cache rest with ⟨vs, c, att⟩
    unfold ensure_labels_exist
    rw [h1, h2, hE]

theorem C7_label_reconciliation_witness :
    ensure_labels_exist (fun _ => none) [("bug".toList, "Bug".toList)]
        ["bug".toList] =
      (["Bug".toList], [("bug".toList, "Bug".toList)], []) ∧
    ensure_labels_exist (fun l => some l) [] ["new".toList] =
      (["new".toList], [("new".toList, "new".toList)], ["new".toList]) ∧
    ensure_labels_exist (fun _ => none) [] ["bad".toList, "bad2".toList] =
      ([], [], ["bad".toList, "bad2".toList]) := by
  refine ⟨C7_label_reconciliation.1 (fun _ => none), ?_, ?_⟩
  · exact (C7_label_reconciliation.2.2.1 (fun l => some l) [] "new".toList []
      "new".toList (by decide) rfl).trans (by decide)
  · exact (C7_label_reconciliation.2.2.2 (fun _ => none) [] "bad".toList
      ["bad2".toList] (by decide) rfl).trans (by decide)

/-! ### Claim C3 -/

/-- C3: the label tokenizer scans separators in the fixed priority order
comma, semicolon, pipe, and splits exclusively on the first of these
found anywhere in the raw string (other separator characters present are
not also split on); each token is trimmed and empty tokens are dropped;
an empty or missing labels value yields the empty list.  Includes the
concrete examples of the spec and the general splitting rules. -/
theorem C3_label_tokenizer :
    parse_labels (some "bug,high-priority".toList) =
      ["bug".toList, "high-priority".toList] ∧
    parse_labels (some "a;b;c".toList) =
      ["a".toList, "b".toList, "c".toList] ∧
    parse_labels (some "x|y".toList) = ["x".toList, "y".toList] ∧
    parse_labels (some "a,b;c".toList) = ["a".toList, "b;c".toList] ∧
    parse_labels (some []) = [] ∧
    parse_labels none = [] ∧
    (∀ s : Str, s ≠ [] → ',' ∈ s →
      parse_labels (some s) =
        ((Py.split ',' s).map Py.strip).filter (fun l => l ≠ [])) ∧
    (∀ s : Str, s ≠ [] → ',' ∉ s → ';' ∈ s →
      parse_labels (some s) =
        ((Py.split ';' s).map Py.strip).filter (fun l => l ≠ [])) ∧
    (∀ s : Str, s ≠ [] → ',' ∉ s → ';' ∉ s → '|' ∈ s →
      parse_labels (some s) =
        ((Py.split '|' s).map Py.strip).filter (fun l => l ≠ [])) ∧
    (∀ s : Str, s ≠ [] → ',' ∉ s → ';' ∉ s → '|' ∉ s →
      parse_labels (some s) = ([s].map Py.strip).filter (fun l => l ≠ [])) := by
  refine ⟨by decide, by decide, by decide, by decide, by decide, by decide,
    ?_, ?_, ?_, ?_⟩
  · intro s hne hc
    simp [parse_labels, hne, List.find?, hc]
  · intro s hne hc hs
    simp [parse_labels, hne, List.find?, hc, hs]
  · intro s hne hc hs hp
    simp [parse_labels, hne, List.find?, hc, hs, hp]
  · intro s hne hc hs hp
    simp [parse_labels, hne, List.find?, hc, hs, hp]

theorem C3_label_tokenizer_witness :
    parse_labels (some "p,q".toList) =
      ((Py.split ',' "p,q".toList).map Py.strip).filter (fun l => l ≠ []) ∧
    parse_labels (some "p;q".toList) =
      ((Py.split ';' "p;q".toList).map Py.strip).filter (fun l => l ≠ []) ∧
    parse_labels (some "p|q".toList) =
      ((Py.split '|' "p|q".toList).map Py.strip).filter (fun l => l ≠ []) ∧
    parse_labels (some " p q ".toList) =
      (([" p q ".toList]).map Py.strip).filter (fun l => l ≠ []) :=
  ⟨C3_label_tokenizer.2.2.2.2.2.2.1 "p,q".toList (by decide) (by decide),
    C3_label_tokenizer.2.2.2.2.2.2.2.1 "p;q".toList (by decide) (by decide)
      (by decide),
    C3_label_tokenizer.2.2.2.2.2.2.2.2.1 "p|q".toList (by decide) (by decide)
      (by decide) (by decide),
    C3_label_tokenizer.2.2.2.2.2.2.2.2.2 " p q ".toList (by decide) (by decide)
      (by decide) (by decide)⟩

/-! ### Claim C4 -/

theorem default_status_loop_eq_find (cols : List ProjectColumn) :
    default_status_loop cols =
      (cols.find? (fun c => c.is_default ||
        default_names.contains (Py.lower c.name))).map (·.name) := by
  induction cols with
  | nil => rfl
  | cons c rest ih =>
    cases h1 : c.is_default
    · by_cases h2 : Py.lower c.name ∈ default_names
      · simp [default_status_loop, List.find?, h1, h2]
      · simp [default_status_loop, List.find?, h1, h2, ih]
    · simp [default_status_loop, List.find?, h1]

/-- C4 counterexample: on a project whose first column is named
`backlog` without the default flag while the second column `X` carries
the explicit default flag, `get_default_status` returns `backlog`, not
the explicit-default column `X` that the claim (and the spec rule
`resolveDefaultColumn`) requires. -/
theorem C4_default_status_counterexample :
    projHeurFirst.columns.any (·.is_default) = true ∧
    get_default_status projHeurFirst = some "backlog".toList ∧
    resolveDefaultColumn_spec projHeurFirst = some "X".toList ∧
    ¬ get_default_status projHeurFirst = resolveDefaultColumn_spec projHeurFirst := by
  decide

/-- C4 amended: `get_default_status` makes a single pass over the
columns and returns the name of the first column that either has the
default flag set or whose lower-cased name is one of the heuristic
names; otherwise the name of the first column; otherwise none.  An earlier
heuristic-named non-default column therefore takes precedence over a
later explicit-default column. -/
theorem C4_default_status_amended (project : ProjectInfo) :
    get_default_status project =
      match project.columns.find? (fun c => c.is_default ||
          default_names.contains (Py.lower c.name)) with
      | some c => some c.name
      | none => project.columns.head?.map (·.name) := by
  unfold get_default_status
  rw [default_status_loop_eq_find]
  cases hf : project.columns.find? (fun c => c.is_default ||
      default_names.contains (Py.lower c.name)) with
  | some c => rfl
  | none =>
    cases project.columns with
    | nil => rfl
    | cons c rest => rfl

/-! ### Claim C5 -/

/-- C5: evaluating `parse_project_fields_from_csv_row` at the failing
input: although `state` is one of the status-key aliases, it is missing
from the skip list, so a row key `state` matching the project field
`State` IS emitted as a custom-field override (the claim says it never
is), in addition to being consumed as the status. -/
theorem C5_state_alias_not_skipped :
    parse_project_fields_from_csv_row projStateField
        [("state".toList, "Open".toList)] =
      (some "Open".toList, [("State".toList, "Open".toList)]) ∧
    "state".toList ∈ status_keys ∧
    "state".toList ∉ standard_skip_keys := by
  decide

/-! ### Claim C6 -/

theorem foldl_append_flatten {α β : Type} (f : α → List β) (l : List α) :
    ∀ init : List β,
      l.foldl (fun acc x => acc ++ f x) init = init ++ (l.map f).flatten := by
  induction l with
  | nil => intro init; simp
  | cons x rest ih => intro init; simp [List.foldl_cons, ih]

/-- C6: `validate_project_fields` is pure and collects every violation
without short-circuiting.  (i) `ok` is true exactly when the error list
is empty.  (ii) The error list is the status error followed by the
per-entry field errors, each entry contributing independently.  (iii) A
truthy status matching no column name case-insensitively yields exactly
one status error, and a matching one yields none.  (iv) A field key
matching no declared field name yields exactly one error for that entry.
(v) A single-select field with options and a value matching no option
case-insensitively yields exactly one error citing the value.  (vi) The
example of the spec: status Done with Size=XL against Todo/Doing/Done and
Size(SingleSelect, S/M/L) returns ok=false with the one error citing XL. -/
theorem C6_validate_project_fields :
    (∀ (project : ProjectInfo) (status : Option Str)
        (custom_fields : List (Str × Str)),
      ((validate_project_fields project status custom_fields).1 = true ↔
        (validate_project_fields project status custom_fields).2 = [])) ∧
    (∀ (project : ProjectInfo) (status : Option Str)
        (custom_fields : List (Str × Str)),
      (validate_project_fields project status custom_fields).2 =
        status_errors project status ++
          (custom_fields.map (validate_field_entry project)).flatten) ∧
    (∀ (project : ProjectInfo) (s : Str), s ≠ [] →
      (∀ col ∈ project.columns, Py.lower col.name ≠ Py.lower s) →
      status_errors project (some s) =
        ["Invalid status ".toList ++ s ++ ". Available: ".toList ++
          joinComma (project.columns.map (·.name))]) ∧
    (∀ (project : ProjectInfo) (s : Str) (col : ProjectColumn), s ≠ [] →
      col ∈ project.columns → Py.lower col.name = Py.lower s →
      status_errors project (some s) = []) ∧
    (∀ (project : ProjectInfo) (kv : Str × Str),
      lookupDict (valid_fields_dict project) (Py.lower kv.1) = none →
      validate_field_entry project kv =
        ["Invalid field ".toList ++ kv.1 ++ ". Available: ".toList ++
          joinComma (project.custom_fields.map (·.name))]) ∧
    (∀ (project : ProjectInfo) (kv : Str × Str) (field : ProjectField),
      lookupDict (valid_fields_dict project) (Py.lower kv.1) = some field →
      field.data_type = "SINGLE_SELECT".toList → field.options ≠ [] →
      Py.lower kv.2 ∉ field.options.map Py.lower →
      validate_field_entry project kv =
        ["Invalid value ".toList ++ kv.2 ++ " for field ".toList ++ kv.1 ++
          ". Available: ".toList ++ joinComma field.options]) ∧
    validate_project_fields projSizes (some "Done".toList)
        [("Size".toList, "XL".toList)] =
      (false,
        ["Invalid value XL for field Size. Available: S, M, L".toList]) := by
  refine ⟨?_, ?_, ?_, ?_, ?_, ?_, by decide⟩
  · intro project status custom_fields
    show ((validate_project_fields project status custom_fields).2.length == 0)
        = true ↔ (validate_project_fields project status custom_fields).2 = []
    simp
  · intro project status custom_fields
    exact foldl_append_flatten (validate_field_entry project) custom_fields
      (status_errors project status)
  · intro project s hne hall
    have hc : Py.lower s ∉ project.columns.map (fun col => Py.lower col.name) := by
      intro hmem
      obtain ⟨col, hcol, heq⟩ := List.mem_map.mp hmem
      exact hall col hcol heq
    simp [status_errors, truthy, hne, List.elem_iff, hc]
  · intro project s col hne hcol heq
    have hc : Py.lower s ∈ project.columns.map (fun col => Py.lower col.name) :=
      List.mem_map.mpr ⟨col, hcol, heq⟩
    simp [status_errors, truthy, hne, List.elem_iff, hc]
  · intro project kv h
    unfold validate_field_entry
    rw [h]
  · intro project kv field h hdt hopts hval
    unfold validate_field_entry
    rw [h]
    dsimp only
    rw [if_pos ⟨hdt, hopts⟩, if_neg]
    intro hmem
    exact hval (List.elem_iff.mp hmem)

theorem C6_validate_project_fields_witness :
    ((validate_project_fields projSizes (some "Done".toList)
        [("Size".toList, "XL".toList)]).1 = true ↔
      (validate_project_fields projSizes (some "Done".toList)
        [("Size".toList, "XL".toList)]).2 = []) ∧
    status_errors projSizes (some "Nowhere".toList) =
      ["Invalid status ".toList ++ "Nowhere".toList ++ ". Available: ".toList ++
        joinComma (projSizes.columns.map (·.name))] ∧
    status_errors projSizes (some "done".toList) = [] ∧
    validate_field_entry projSizes ("Size".toList, "XL".toList) =
      ["Invalid value ".toList ++ "XL".toList ++ " for field ".toList ++
        "Size".toList ++ ". Available: ".toList ++
        joinComma ["S".toList, "M".toList, "L".toList]] :=
  ⟨C6_validate_project_fields.1 projSizes (some "Done".toList)
      [("Size".toList, "XL".toList)],
    C6_validate_project_fields.2.2.1 projSizes "Nowhere".toList (by decide)
      (by decide),
    C6_validate_project_fields.2.2.2.1 projSizes "done".toList
      { id := "c3".toList, name := "Done".toList, is_default := false }
      (by decide) (by decide) (by decide),
    C6_validate_project_fields.2.2.2.2.2.1 projSizes
      ("Size".toList, "XL".toList)
      { id := "fs".toList, name := "Size".toList,
        data_type := "SINGLE_SELECT".toList,
        options := ["S".toList, "M".toList, "L".toList] }
      (by decide) (by decide) (by decide) (by decide)⟩

/-! ### Claim C9 -/

/-- C9: `validate_project_fields` performs no option check for a field
whose `data_type` is `SINGLE_SELECT` but whose options list is empty:
for every such field and every supplied value, the entry contributes no
error, and validating that single entry succeeds. -/
theorem C9_single_select_no_options (project : ProjectInfo) (k v : Str)
    (field : ProjectField)
    (h1 : lookupDict (valid_fields_dict project) (Py.lower k) = some field)
    (h2 : field.data_type = "SINGLE_SELECT".toList)
    (h3 : field.options = []) :
    validate_field_entry project (k, v) = [] ∧
    validate_project_fields project none [(k, v)] = (true, []) := by
  have he : validate_field_entry project (k, v) = [] := by
    unfold validate_field_entry
    rw [h1]
    dsimp only
    rw [if_neg]
    intro hcond
    exact hcond.2 h3
  refine ⟨he, ?_⟩
  show (validate_project_fields project none [(k, v)]) = (true, [])
  unfold validate_project_fields
  simp [status_errors, truthy, he]

theorem C9_single_select_no_options_witness :
    validate_field_entry projNoOptions ("Empty".toList, "anything".toList) = [] ∧
    validate_project_fields projNoOptions none
      [("Empty".toList, "anything".toList)] = (true, []) :=
  C9_single_select_no_options projNoOptions "Empty".toList "anything".toList
    { id := "fe".toList, name := "Empty".toList,
      data_type := "SINGLE_SELECT".toList, options := [] }
    (by decide) rfl rfl

/-! ### Claim C8 -/

/-- C8: in `add_issue_to_project`, attach failure aborts the whole
assignment — the call reports failure and neither the status phase nor
the custom-field phase is attempted.  When attach succeeds, the call
reports success unconditionally; the calls of the status phase are a function
of the status alone (so no custom-field failure can prevent them) and
the calls of the custom-field phase are a function of the fields alone (so an
unresolved status cannot prevent them).  The custom-field phase is
additive over its entries: the calls for each entry are made regardless of
failures of the other entries. -/
theorem C8_assignment_isolation :
    (∀ (env : ProjEnv) (project : ProjectInfo) (issue_node_id : Str)
        (status : Option Str) (custom_fields : List (Str × Str)),
      env.attachResult project.id issue_node_id = none →
      add_issue_to_project env project issue_node_id status custom_fields =
        (false, [.attach project.id issue_node_id])) ∧
    (∀ (env : ProjEnv) (project : ProjectInfo) (issue_node_id : Str)
        (status : Option Str) (custom_fields : List (Str × Str))
        (item_id : Str),
      env.attachResult project.id issue_node_id = some item_id →
      add_issue_to_project env project issue_node_id status custom_fields =
        (true, .attach project.id issue_node_id ::
          ((match truthy status with
            | some s => (set_project_item_status env project item_id s).2
            | none => []) ++
            (if custom_fields ≠ [] then
              set_project_item_custom_fields env project item_id custom_fields
            else [])))) ∧
    (∀ (env : ProjEnv) (project : ProjectInfo) (item_id : Str)
        (cf1 cf2 : List (Str × Str)),
      set_project_item_custom_fields env project item_id (cf1 ++ cf2) =
        set_project_item_custom_fields env project item_id cf1 ++
          set_project_item_custom_fields env project item_id cf2) := by
  refine ⟨?_, ?_, ?_⟩
  · intro env project issue_node_id status custom_fields h
    unfold add_issue_to_project
    rw [h]
  · intro env project issue_node_id status custom_fields item_id h
    unfold add_issue_to_project
    rw [h]
  · intro env project item_id cf1 cf2
    unfold set_project_item_custom_fields
    rw [foldl_append_flatten, foldl_append_flatten, foldl_append_flatten]
    simp

theorem C8_assignment_isolation_witness :
    add_issue_to_project projEnvAttachFail projBoard "issue-1".toList
      (some "Todo".toList) [("A".toList, "x".toList)] =
      (false, [.attach projBoard.id "issue-1".toList]) ∧
    set_project_item_custom_fields projEnvOk projBoard "item".toList
        ([("B".toList, "Nope".toList)] ++ [("A".toList, "x".toList)]) =
      set_project_item_custom_fields projEnvOk projBoard "item".toList
          [("B".toList, "Nope".toList)] ++
        set_project_item_custom_fields projEnvOk projBoard "item".toList
          [("A".toList, "x".toList)] ∧
    add_issue_to_project projEnvOk projBoard "issue-1".toList
        (some "Todo".toList)
        [("B".toList, "Nope".toList), ("A".toList, "x".toList)] =
      (true, [.attach "p8".toList "issue-1".toList,
        .queryOptionId "fstatus".toList "Todo".toList,
        .setFieldValue "fstatus".toList "item".toList,
        .queryOptionId "fB".toList "Nope".toList,
        .setFieldValue "fA".toList "item".toList]) :=
  ⟨C8_assignment_isolation.1 projEnvAttachFail projBoard "issue-1".toList
      (some "Todo".toList) [("A".toList, "x".toList)] rfl,
    C8_assignment_isolation.2.2 projEnvOk projBoard "item".toList
      [("B".toList, "Nope".toList)] [("A".toList, "x".toList)],
    by decide⟩

/-! ### Claim C10 -/

/-- C10: `find_project_by_name` searches the discovery-order list
(repository-scoped, then organization-scoped, then user-scoped
projects) and returns the first project whose title case-insensitively
equals the queried name: the search decomposes scope by scope with
repository scope taking precedence, `None` is returned exactly when no
title matches, and any returned project has a matching title and belongs
to the discovered list. -/
theorem C10_find_project_by_name :
    (∀ (rs os us : List ProjectInfo) (name : Str),
      find_project_by_name rs os us name =
        ((rs.find? (fun p => Py.lower p.title = Py.lower name)).or
          ((os.find? (fun p => Py.lower p.title = Py.lower name)).or
            (us.find? (fun p => Py.lower p.title = Py.lower name))))) ∧
    (∀ (rs os us : List ProjectInfo) (name : Str),
      (∀ p ∈ get_projects rs os us, Py.lower p.title ≠ Py.lower name) →
      find_project_by_name rs os us name = none) ∧
    (∀ (rs os us : List ProjectInfo) (name : Str) (p : ProjectInfo),
      find_project_by_name rs os us name = some p →
      Py.lower p.title = Py.lower name ∧ p ∈ get_projects rs os us) := by
  refine ⟨?_, ?_, ?_⟩
  · intro rs os us name
    unfold find_project_by_name get_projects
    rw [List.find?_append, List.find?_append, Option.or_assoc]
  · intro rs os us name h
    refine List.find?_eq_none.mpr ?_
    intro p hp
    simpa using h p hp
  · intro rs os us name p h
    exact ⟨by simpa using List.find?_some h, List.mem_of_find?_eq_some h⟩

theorem C10_find_project_by_name_witness :
    find_project_by_name [projRepoBoard] [] [projUserBoard] "BOARD".toList =
      some projRepoBoard ∧
    find_project_by_name [projRepoBoard] [] [projUserBoard] "zzz".toList =
      none :=
  ⟨(C10_find_project_by_name.1 [projRepoBoard] [] [projUserBoard]
      "BOARD".toList).trans (by decide),
    C10_find_project_by_name.2.1 [projRepoBoard] [] [projUserBoard]
      "zzz".toList (by decide)⟩

end IssueHelper
